import Mathlib

/-!
Shallow embedding of the `create-restful-swr` synchronization core.

The embedding covers:
* the `ResourceAdapter` capability set and the `defaultUpsert` / `defaultFilter`
  building blocks together with the `DefaultRestAdapter` (src/adapter.ts);
* the `ResourceCacher` synchronizer (the six remote operations and their
  cache-propagation steps), modelled as pure state-passing functions over an
  explicit cache, with the remote outcome supplied as an `Except` value and
  with an explicit trace of remote calls and cache writes;
* the resource-scoped view binding's id guard (`assertId`) and the four
  id-bound operations of `useSWRResource`.

Machine conventions: the external SWR cache is a key-indexed partial map; a
`mutate(key, value, revalidate: false)` call is a committed write; a
`mutate(key, updaterFn, revalidate: false)` call commits the updater's result
when it is defined and is skipped when the updater returns `undefined`
(the guarded no-op the source relies on). JavaScript `await`-rethrow of a
rejected promise is modelled by `Except` propagation.
-/

/-- A value stored in the SWR cache: a single resource, a collection, or the
`null` tombstone written after a removal. -/
inductive CacheValue (RT CT : Type) where
  | res (r : RT)
  | col (c : CT)
  | null
deriving DecidableEq

/-- The external SWR cache: a partial map from cache keys to cache values.
An absent entry (`none`) is "never fetched"; `some .null` is the tombstone. -/
def Cache (K RT CT : Type) : Type := K → Option (CacheValue RT CT)

/-- One cache-write event issued through the scoped mutator: either a commit
of a value at a key, or a skipped updater call (the updater returned
`undefined`).  `revalidate` records the revalidation flag passed to `mutate`
(`false` everywhere in the source: the no-refetch writes). -/
inductive CacheWrite (K RT CT : Type) where
  | committed (key : K) (value : CacheValue RT CT) (revalidate : Bool)
  | skipped (key : K) (revalidate : Bool)
deriving DecidableEq

/-- One remote-client invocation (the capability set of `RestClient`).
`patch` models the source's partial-update operation, whose params have
type `Partial<UP>`, abstracted here as `PP`. -/
inductive RemoteCall (LP CP UP PP : Type) where
  | list (params : Option LP)
  | create (params : CP)
  | view (id : String)
  | update (id : String) (params : UP)
  | patch (id : String) (params : PP)
  | remove (id : String)
deriving DecidableEq

/-- An error surfaced to the synchronizer's caller: either an exception thrown
locally before the remote call (`thrown msg`, e.g. the id guard's
`Error('id is undefined')`), or the remote client's rejection carried
verbatim (`remote e`). -/
inductive CrsError (ε : Type) where
  | thrown (msg : String)
  | remote (e : ε)
deriving DecidableEq

/-- The `ResourceAdapter<LP, CT, RT>` capability set from src/adapter.ts, with
cache keys abstracted as `K`.  `resourceKey` accepts a full resource
(`Sum.inl`) or a bare id string (`Sum.inr`), mirroring `RT | string`;
`collectionKey` takes the optional list params (`none` is the
unparameterized call `collectionKey()`). -/
structure ResourceAdapter (LP CT RT K : Type) where
  id : RT → String
  resourceKey : RT ⊕ String → K
  collectionKey : Option LP → K
  all : CT → List RT
  upsert : RT → CT → CT
  remove : String → CT → CT

/-- Return shape of `defaultUpsert`: whether an insertion (vs. replacement)
occurred, and the resulting array of resources. -/
structure UpsertResult (RT : Type) where
  inserted : Bool
  result : List RT
deriving DecidableEq

/-- `defaultUpsert` from src/adapter.ts.  The source takes the whole
`ResourceAdapter` and reads only its `id` method; the embedding takes that
method directly (`idOf`).  The source sets a mutable `inserted` flag to
`false` inside the `map` callback whenever an element's id matches, which is
equivalent to `inserted = !collection.any(match)`; the `map` replaces each
matching element with `resource`; the result is the mapped array when a match
occurred and `[...collection, resource]` otherwise. -/
def defaultUpsert {RT : Type} (idOf : RT → String) (resource : RT)
    (collection : List RT) : UpsertResult RT :=
  let inserted := !(collection.any fun r => idOf r == idOf resource)
  let updated := collection.map fun r =>
    if idOf r == idOf resource then resource else r
  let result := if !inserted then updated else collection ++ [resource]
  ⟨inserted, result⟩

/-- Return shape of `defaultFilter`: whether a removal actually occurred, and
the resulting array of resources. -/
structure FilterResult (RT : Type) where
  removed : Bool
  result : List RT
deriving DecidableEq

/-- `defaultFilter` from src/adapter.ts.  As with `defaultUpsert`, the
source's adapter argument is narrowed to its `id` method.  The source sets a
mutable `removed` flag to `true` inside the `filter` callback whenever an
element's id matches (equivalent to `removed = collection.any(match)`) and
keeps the non-matching elements. -/
def defaultFilter {RT : Type} (idOf : RT → String) (id : String)
    (collection : List RT) : FilterResult RT :=
  let removed := collection.any fun r => idOf r == id
  let result := collection.filter fun r => !(idOf r == id)
  ⟨removed, result⟩

/-- One element of a `DefaultRestAdapter` cache key: the key arrays built by
the source are `[cacheKey, id]` (both strings) for a resource and
`[cacheKey, params]` for a collection, where `params` may be `undefined`. -/
inductive KeyElem (LP : Type) where
  | str (s : String)
  | par (p : LP)
  | undef
deriving DecidableEq

/-- A `DefaultRestAdapter` cache key: an ordered sequence of key elements,
compared structurally. -/
abbrev DefaultKey (LP : Type) : Type := List (KeyElem LP)

/-- The `DefaultRestAdapter<LP, RK, CT, RT>` configuration from
src/adapter.ts: a cache-key string plus the name (`idKey : RK`) of the
resource property holding the unique identifier.  TypeScript's indexed read
`resource[idKey]` (where `RT extends { [K in RK]: string }`) is modelled by
the explicit accessor `field`. -/
structure DefaultRestAdapter (LP RK RT : Type) where
  cacheKey : String
  idKey : RK
  field : RT → RK → String

namespace DefaultRestAdapter

variable {LP RK RT : Type}

/-- `id(resource)`: reads `resource[this.idKey]`. -/
def id (D : DefaultRestAdapter LP RK RT) (resource : RT) : String :=
  D.field resource D.idKey

/-- `resourceKey(resource)`: `[this.cacheKey, typeof resource === 'string' ?
resource : this.id(resource)]`. -/
def resourceKey (D : DefaultRestAdapter LP RK RT) :
    RT ⊕ String → DefaultKey LP
  | .inr s => [.str D.cacheKey, .str s]
  | .inl r => [.str D.cacheKey, .str (D.id r)]

/-- `collectionKey(params)`: `[this.cacheKey, params]` (`params` may be
`undefined`). -/
def collectionKey (D : DefaultRestAdapter LP RK RT) (params : Option LP) :
    DefaultKey LP :=
  [.str D.cacheKey, match params with
    | some p => .par p
    | none => .undef]

/-- `all(collection)`: the collection type is literally an array of
resources, returned as is. -/
def all (_D : DefaultRestAdapter LP RK RT) (collection : List RT) :
    List RT :=
  collection

/-- `upsert(resource, collection)`: forwards to `defaultUpsert` and returns
its `result`. -/
def upsert (D : DefaultRestAdapter LP RK RT) (resource : RT)
    (collection : List RT) : List RT :=
  (defaultUpsert D.id resource collection).result

/-- `remove(id, collection)`: forwards to `defaultFilter` and returns its
`result`. -/
def remove (D : DefaultRestAdapter LP RK RT) (id : String)
    (collection : List RT) : List RT :=
  (defaultFilter D.id id collection).result

/-- The `ResourceAdapter` capability set implemented by a
`DefaultRestAdapter`. -/
def toAdapter (D : DefaultRestAdapter LP RK RT) :
    ResourceAdapter LP (List RT) RT (DefaultKey LP) where
  id := D.id
  resourceKey := D.resourceKey
  collectionKey := D.collectionKey
  all := D.all
  upsert := D.upsert
  remove := D.remove

end DefaultRestAdapter

/-- Commit a value at a key: every other entry of the cache is untouched. -/
def setEntry {K RT CT : Type} [DecidableEq K] (cache : Cache K RT CT) (k : K)
    (v : CacheValue RT CT) : Cache K RT CT :=
  fun q => if q = k then some v else cache q

/-- A `mutate(key, value, { revalidate: false })` call with a literal value:
returns the write event and the updated cache. -/
def mutateValue {K RT CT : Type} [DecidableEq K] (cache : Cache K RT CT)
    (k : K) (v : CacheValue RT CT) : CacheWrite K RT CT × Cache K RT CT :=
  (.committed k v false, setEntry cache k v)

/-- A `mutate(key, updaterFn, { revalidate: false })` call: the updater is
applied to the current entry; a defined result is committed, an `undefined`
result skips the write (SWR's guarded-update semantics the source relies on
so that a missing collection entry is never fabricated). -/
def mutateWith {K RT CT : Type} [DecidableEq K] (cache : Cache K RT CT)
    (k : K) (f : Option (CacheValue RT CT) → Option (CacheValue RT CT)) :
    CacheWrite K RT CT × Cache K RT CT :=
  match f (cache k) with
  | some v => (.committed k v false, setEntry cache k v)
  | none => (.skipped k false, cache)

/-- The collection updater `collection => collection && f(collection)` used by
the synchronizer: `undefined` (absent entry) is falsy, so the updater returns
`undefined` and the write is skipped; a present collection is transformed by
`f`.  A `null` entry is also falsy in JavaScript and is returned as is; a
resource value at a collection key is ill-typed in the source and is kept
unchanged here. -/
def guardedColUpdate {RT CT : Type} (f : CT → CT) :
    Option (CacheValue RT CT) → Option (CacheValue RT CT)
  | none => none
  | some (.col c) => some (.col (f c))
  | some .null => some .null
  | some (.res r) => some (.res r)

/-- The observable outcome of one synchronizer (or binding) operation: the
value returned (or error thrown) to the caller, the remote-client calls
issued, the cache writes issued in order, and the final cache. -/
structure OpResult (K RT CT LP CP UP PP ε α : Type) where
  result : Except (CrsError ε) α
  calls : List (RemoteCall LP CP UP PP)
  writes : List (CacheWrite K RT CT)
  cache : Cache K RT CT

section ResourceCacher

variable {K RT CT LP CP UP PP VR ε : Type} [DecidableEq K]

/-- The `for (const resource of all(collection))` loop of `listResources`:
sequentially awaited `mutate(resourceKey(resource), resource, no-refetch)`
writes, one per resource, in the order yielded by `all`. -/
def writeEachResource (A : ResourceAdapter LP CT RT K) :
    List RT → Cache K RT CT → List (CacheWrite K RT CT) × Cache K RT CT
  | [], cache => ([], cache)
  | r :: rs, cache =>
      let w := mutateValue cache (A.resourceKey (.inl r)) (.res r)
      let rest := writeEachResource A rs w.2
      (w.1 :: rest.1, rest.2)

/-- `ResourceCacher.listResources(params)`: awaits `client.list(params)`
(outcome supplied as `remote`); on success writes the collection to
`collectionKey(params)` (no-refetch), then each resource of `all(collection)`
to its own `resourceKey` (no-refetch), and returns the collection.  A
rejection rethrows before any write. -/
def listResources (A : ResourceAdapter LP CT RT K) (cache : Cache K RT CT)
    (params : Option LP) (remote : Except ε CT) :
    OpResult K RT CT LP CP UP PP ε CT :=
  match remote with
  | .error e => ⟨.error (.remote e), [.list params], [], cache⟩
  | .ok collection =>
      let w := mutateValue cache (A.collectionKey params) (.col collection)
      let loop := writeEachResource A (A.all collection) w.2
      ⟨.ok collection, [.list params], w.1 :: loop.1, loop.2⟩

/-- `ResourceCacher.createResource(params)`: awaits `client.create(params)`;
on success applies the guarded `upsert` updater at the unparameterized
`collectionKey()`, then writes the resource to its `resourceKey`, and returns
the resource. -/
def createResource (A : ResourceAdapter LP CT RT K) (cache : Cache K RT CT)
    (params : CP) (remote : Except ε RT) :
    OpResult K RT CT LP CP UP PP ε RT :=
  match remote with
  | .error e => ⟨.error (.remote e), [.create params], [], cache⟩
  | .ok resource =>
      let resourceKey := A.resourceKey (.inl resource)
      let w1 := mutateWith cache (A.collectionKey none)
        (guardedColUpdate (A.upsert resource))
      let w2 := mutateValue w1.2 resourceKey (.res resource)
      ⟨.ok resource, [.create params], [w1.1, w2.1], w2.2⟩

/-- `ResourceCacher.viewResource(id)`: awaits `client.view(id)`; on success
the same two-step propagation as `createResource` (guarded `upsert` into the
unparameterized collection, then the resource write), returning the
resource. -/
def viewResource (A : ResourceAdapter LP CT RT K) (cache : Cache K RT CT)
    (id : String) (remote : Except ε RT) :
    OpResult K RT CT LP CP UP PP ε RT :=
  match remote with
  | .error e => ⟨.error (.remote e), [.view id], [], cache⟩
  | .ok resource =>
      let w1 := mutateWith cache (A.collectionKey none)
        (guardedColUpdate (A.upsert resource))
      let w2 := mutateValue w1.2 (A.resourceKey (.inl resource))
        (.res resource)
      ⟨.ok resource, [.view id], [w1.1, w2.1], w2.2⟩

/-- `ResourceCacher.updateResource(id, params)`: awaits
`client.update(id, params)`; propagation identical to `viewResource`. -/
def updateResource (A : ResourceAdapter LP CT RT K) (cache : Cache K RT CT)
    (id : String) (params : UP) (remote : Except ε RT) :
    OpResult K RT CT LP CP UP PP ε RT :=
  match remote with
  | .error e => ⟨.error (.remote e), [.update id params], [], cache⟩
  | .ok resource =>
      let w1 := mutateWith cache (A.collectionKey none)
        (guardedColUpdate (A.upsert resource))
      let w2 := mutateValue w1.2 (A.resourceKey (.inl resource))
        (.res resource)
      ⟨.ok resource, [.update id params], [w1.1, w2.1], w2.2⟩

/-- `ResourceCacher.partialResource(id, params)` (the partial-update
operation): awaits `client.partial(id, params)`; propagation identical to
`viewResource`. -/
def patchResource (A : ResourceAdapter LP CT RT K) (cache : Cache K RT CT)
    (id : String) (params : PP) (remote : Except ε RT) :
    OpResult K RT CT LP CP UP PP ε RT :=
  match remote with
  | .error e => ⟨.error (.remote e), [.patch id params], [], cache⟩
  | .ok resource =>
      let w1 := mutateWith cache (A.collectionKey none)
        (guardedColUpdate (A.upsert resource))
      let w2 := mutateValue w1.2 (A.resourceKey (.inl resource))
        (.res resource)
      ⟨.ok resource, [.patch id params], [w1.1, w2.1], w2.2⟩

/-- `ResourceCacher.removeResource(id)`: awaits `client.remove(id)` (result
type abstracted as `VR`); on success applies the guarded `remove` updater at
the unparameterized `collectionKey()`, then writes the `null` tombstone to
`resourceKey(id)`, and returns the remote call's result. -/
def removeResource (A : ResourceAdapter LP CT RT K) (cache : Cache K RT CT)
    (id : String) (remote : Except ε VR) :
    OpResult K RT CT LP CP UP PP ε VR :=
  match remote with
  | .error e => ⟨.error (.remote e), [.remove id], [], cache⟩
  | .ok response =>
      let resourceKey := A.resourceKey (.inr id)
      let w1 := mutateWith cache (A.collectionKey none)
        (guardedColUpdate (A.remove id))
      let w2 := mutateValue w1.2 resourceKey .null
      ⟨.ok response, [.remove id], [w1.1, w2.1], w2.2⟩

end ResourceCacher

/-- `assertId` from the hook entry point: `if (!id) throw new
Error('id is undefined')`.  On a `string | undefined` value, JavaScript's
`!id` is true exactly when `id` is `undefined` or the empty string. -/
def assertId (idOpt : Option String) : Except String String :=
  match idOpt with
  | none => .error "id is undefined"
  | some s => if s = "" then .error "id is undefined" else .ok s

section ResourceBinding

variable {K RT CT LP CP UP PP VR ε : Type} [DecidableEq K]

/-- The resource-scoped binding's `api.view()`: `assertId(id)` then
`cacher.viewResource(id)`.  A thrown guard error is surfaced to the caller
with no remote call and no cache write; `remote` gives the outcome of
`client.view` for each id it could be invoked on. -/
def boundView (A : ResourceAdapter LP CT RT K) (cache : Cache K RT CT)
    (idOpt : Option String) (remote : String → Except ε RT) :
    OpResult K RT CT LP CP UP PP ε RT :=
  match assertId idOpt with
  | .error msg => ⟨.error (.thrown msg), [], [], cache⟩
  | .ok id => viewResource A cache id (remote id)

/-- The resource-scoped binding's `api.update(params)`: `assertId(id)` then
`cacher.updateResource(id, params)`. -/
def boundUpdate (A : ResourceAdapter LP CT RT K) (cache : Cache K RT CT)
    (idOpt : Option String) (params : UP) (remote : String → Except ε RT) :
    OpResult K RT CT LP CP UP PP ε RT :=
  match assertId idOpt with
  | .error msg => ⟨.error (.thrown msg), [], [], cache⟩
  | .ok id => updateResource A cache id params (remote id)

/-- The resource-scoped binding's `api.partial(params)`: `assertId(id)` then
`cacher.partialResource(id, params)`. -/
def boundPatch (A : ResourceAdapter LP CT RT K) (cache : Cache K RT CT)
    (idOpt : Option String) (params : PP) (remote : String → Except ε RT) :
    OpResult K RT CT LP CP UP PP ε RT :=
  match assertId idOpt with
  | .error msg => ⟨.error (.thrown msg), [], [], cache⟩
  | .ok id => patchResource A cache id params (remote id)

/-- The resource-scoped binding's `api.remove()`: `assertId(id)` then
`cacher.removeResource(id)`. -/
def boundRemove (A : ResourceAdapter LP CT RT K) (cache : Cache K RT CT)
    (idOpt : Option String) (remote : String → Except ε VR) :
    OpResult K RT CT LP CP UP PP ε VR :=
  match assertId idOpt with
  | .error msg => ⟨.error (.thrown msg), [], [], cache⟩
  | .ok id => removeResource A cache id (remote id)

end ResourceBinding

/-! Concrete instantiation used to exercise the development on closed inputs:
a minimal resource with a string `id` field, addressed by a
`DefaultRestAdapter` configured with cache key `/todos`. -/

/-- A concrete resource: a record with a stable string id and one data
field. -/
structure Todo where
  id : String
  done : Bool
deriving DecidableEq

/-- A concrete `DefaultRestAdapter` configuration for `Todo` (list params are
strings, the id property is the single field `id`). -/
def todoConfig : DefaultRestAdapter String Unit Todo :=
  ⟨"/todos", (), fun t _ => t.id⟩

/-- The `ResourceAdapter` capability set of `todoConfig`. -/
def todoAdapter : ResourceAdapter String (List Todo) Todo (DefaultKey String) :=
  todoConfig.toAdapter

/-- The empty cache: nothing fetched yet. -/
def emptyCache : Cache (DefaultKey String) Todo (List Todo) :=
  fun _ => none

/-- A stub remote view/update/partial outcome used for closed instantiations. -/
def todoRemote : String → Except String Todo :=
  fun _ => Except.ok ⟨"1", false⟩

/-- A stub remote removal outcome used for closed instantiations. -/
def todoRemoteVoid : String → Except String Unit :=
  fun _ => Except.ok ()

/-- C6, as stated, is false on the code: when the collection holds two
elements with the matching id, the `map` in `defaultUpsert` replaces every
id-match with the new resource, not only the first; the element after the
first match is not left unchanged.  Concretely, upserting `⟨"1", true⟩` into
`[⟨"1", false⟩, ⟨"1", false⟩]` yields `[⟨"1", true⟩, ⟨"1", true⟩]`, not the
claimed `[⟨"1", true⟩, ⟨"1", false⟩]`. -/
theorem defaultUpsert_replaces_every_match :
    (∃ x ∈ ([⟨"1", false⟩, ⟨"1", false⟩] : List Todo),
      todoConfig.id x = todoConfig.id ⟨"1", true⟩) ∧
    todoAdapter.all (todoAdapter.upsert ⟨"1", true⟩ [⟨"1", false⟩, ⟨"1", false⟩])
      = [⟨"1", true⟩, ⟨"1", true⟩] ∧
    todoAdapter.all (todoAdapter.upsert ⟨"1", true⟩ [⟨"1", false⟩, ⟨"1", false⟩])
      ≠ [⟨"1", true⟩, ⟨"1", false⟩] := by
  decide

/-- C6 (amended): for every collection `C` and resource `r` whose id is
present in `C`, `all (upsert r C)` has the same length as `all C`, with every
id-matching element replaced by `r` and every other element unchanged in
order, and `defaultUpsert` reports `inserted = false`. -/
theorem defaultUpsert_id_present_replaces {LP RK RT : Type}
    (D : DefaultRestAdapter LP RK RT) (r : RT) (C : List RT)
    (h : ∃ x ∈ C, D.id x = D.id r) :
    (defaultUpsert D.id r C).inserted = false ∧
    (D.toAdapter.all (D.toAdapter.upsert r C)).length
      = (D.toAdapter.all C).length ∧
    D.toAdapter.all (D.toAdapter.upsert r C)
      = (D.toAdapter.all C).map fun x => if D.id x = D.id r then r else x := by
  have hany : (C.any fun x => D.id x == D.id r) = true := by
    rcases h with ⟨x, hx, hid⟩
    exact List.any_eq_true.mpr ⟨x, hx, beq_iff_eq.mpr hid⟩
  refine ⟨?_, ?_, ?_⟩
  · simp [defaultUpsert, hany]
  · simp [DefaultRestAdapter.toAdapter, DefaultRestAdapter.all,
      DefaultRestAdapter.upsert, defaultUpsert, hany]
  · simp [DefaultRestAdapter.toAdapter, DefaultRestAdapter.all,
      DefaultRestAdapter.upsert, defaultUpsert, hany]

/-- Closed instantiation of `defaultUpsert_id_present_replaces`: upserting
`⟨"1", true⟩` into `[⟨"1", false⟩, ⟨"2", false⟩]` reports a replacement and
keeps the length. -/
theorem defaultUpsert_id_present_replaces_witness :
    (defaultUpsert todoConfig.id ⟨"1", true⟩
      [⟨"1", false⟩, ⟨"2", false⟩]).inserted = false ∧
    (todoConfig.toAdapter.all (todoConfig.toAdapter.upsert ⟨"1", true⟩
      [⟨"1", false⟩, ⟨"2", false⟩])).length
      = (todoConfig.toAdapter.all [⟨"1", false⟩, ⟨"2", false⟩]).length := by
  have h := defaultUpsert_id_present_replaces todoConfig ⟨"1", true⟩
    [⟨"1", false⟩, ⟨"2", false⟩] (by decide)
  exact ⟨h.1, h.2.1⟩

/-- C7: for every collection `C` and resource `r` whose id is not present in
`C`, `all (upsert r C)` is exactly `all C` with `r` appended at the end, and
`defaultUpsert` reports `inserted = true`. -/
theorem defaultUpsert_id_absent_appends {LP RK RT : Type}
    (D : DefaultRestAdapter LP RK RT) (r : RT) (C : List RT)
    (h : ∀ x ∈ C, D.id x ≠ D.id r) :
    (defaultUpsert D.id r C).inserted = true ∧
    D.toAdapter.all (D.toAdapter.upsert r C) = D.toAdapter.all C ++ [r] := by
  have hany : (C.any fun x => D.id x == D.id r) = false := by
    simp only [List.any_eq_false, beq_iff_eq]
    exact h
  constructor
  · simp [defaultUpsert, hany]
  · simp [DefaultRestAdapter.toAdapter, DefaultRestAdapter.all,
      DefaultRestAdapter.upsert, defaultUpsert, hany]

/-- Closed instantiation of `defaultUpsert_id_absent_appends`: upserting
`⟨"2", true⟩` into `[⟨"1", false⟩]` appends it and reports an insertion. -/
theorem defaultUpsert_id_absent_appends_witness :
    (defaultUpsert todoConfig.id ⟨"2", true⟩ [⟨"1", false⟩]).inserted = true ∧
    todoConfig.toAdapter.all (todoConfig.toAdapter.upsert ⟨"2", true⟩
      [⟨"1", false⟩]) = [⟨"1", false⟩, ⟨"2", true⟩] := by
  have h := defaultUpsert_id_absent_appends todoConfig ⟨"2", true⟩
    [⟨"1", false⟩] (by decide)
  exact ⟨h.1, h.2⟩

/-- C8: for every collection `C` and id `i` with no element of `all C` bearing
id `i`, `remove i C` leaves `all` structurally unchanged, and `defaultFilter`
reports `removed = false` exactly when no element matched. -/
theorem defaultFilter_no_match_unchanged {LP RK RT : Type}
    (D : DefaultRestAdapter LP RK RT) (i : String) (C : List RT) :
    ((∀ x ∈ C, D.id x ≠ i) →
      D.toAdapter.all (D.toAdapter.remove i C) = D.toAdapter.all C) ∧
    ((defaultFilter D.id i C).removed = false ↔ ∀ x ∈ C, D.id x ≠ i) := by
  constructor
  · intro h
    simp only [DefaultRestAdapter.toAdapter, DefaultRestAdapter.all,
      DefaultRestAdapter.remove, defaultFilter]
    rw [List.filter_eq_self]
    intro a ha
    simpa using h a ha
  · simp only [defaultFilter, List.any_eq_false, beq_iff_eq]

/-- Closed instantiation of `defaultFilter_no_match_unchanged`: removing the
absent id `"2"` from `[⟨"1", false⟩]` changes nothing and reports no
removal. -/
theorem defaultFilter_no_match_unchanged_witness :
    todoConfig.toAdapter.all (todoConfig.toAdapter.remove "2" [⟨"1", false⟩])
      = [⟨"1", false⟩] ∧
    (defaultFilter todoConfig.id "2" [⟨"1", false⟩]).removed = false := by
  have h := defaultFilter_no_match_unchanged todoConfig "2" [⟨"1", false⟩]
  exact ⟨h.1 (by decide), h.2.mpr (by decide)⟩

/-- C9: for the default REST adapter, `resourceKey` applied to a full
resource and to that resource's id produce the same key value-sequence. -/
theorem resourceKey_id_coherent {LP RK RT : Type}
    (D : DefaultRestAdapter LP RK RT) (r : RT) :
    D.resourceKey (Sum.inl r) = D.resourceKey (Sum.inr (D.id r)) :=
  rfl

/-- The per-resource loop of `listResources` issues exactly one committed
no-refetch write per resource, in list order. -/
theorem writeEachResource_writes {K RT CT LP : Type} [DecidableEq K]
    (A : ResourceAdapter LP CT RT K) (rs : List RT) (cache : Cache K RT CT) :
    (writeEachResource A rs cache).1
      = rs.map fun r =>
          CacheWrite.committed (A.resourceKey (Sum.inl r)) (.res r) false := by
  induction rs generalizing cache with
  | nil => rfl
  | cons r rs ih => simp [writeEachResource, mutateValue, ih]

/-- C1: when the remote list call resolves with a collection, `listResources`
writes the collection to `collectionKey(params)` with refetch suppressed
first, then writes each resource of `all(collection)` to its own
`resourceKey` with refetch suppressed, in exactly the order yielded by `all`,
and returns the collection. -/
theorem listResources_propagation {K RT CT LP CP UP PP ε : Type}
    [DecidableEq K] (A : ResourceAdapter LP CT RT K) (cache : Cache K RT CT)
    (params : Option LP) (collection : CT) :
    (listResources A cache params (Except.ok collection) :
        OpResult K RT CT LP CP UP PP ε CT).result = Except.ok collection ∧
    (listResources A cache params (Except.ok collection) :
        OpResult K RT CT LP CP UP PP ε CT).writes
      = CacheWrite.committed (A.collectionKey params) (.col collection) false
          :: ((A.all collection).map fun r =>
            CacheWrite.committed (A.resourceKey (Sum.inl r)) (.res r) false) := by
  constructor
  · rfl
  · simp [listResources, mutateValue, writeEachResource_writes]

/-- C4: for each of the six synchronizer operations, a remote rejection
produces no cache write, leaves the cache unchanged, and propagates the
rejection (its payload unchanged) to the caller. -/
theorem remote_rejection_no_propagation {K RT CT LP CP UP PP VR ε : Type}
    [DecidableEq K] (A : ResourceAdapter LP CT RT K) (cache : Cache K RT CT)
    (e : ε) (params : Option LP) (cparams : CP) (id : String) (uparams : UP)
    (pparams : PP) :
    (listResources A cache params (Except.error e) :
        OpResult K RT CT LP CP UP PP ε CT)
      = ⟨Except.error (.remote e), [.list params], [], cache⟩ ∧
    (createResource A cache cparams (Except.error e) :
        OpResult K RT CT LP CP UP PP ε RT)
      = ⟨Except.error (.remote e), [.create cparams], [], cache⟩ ∧
    (viewResource A cache id (Except.error e) :
        OpResult K RT CT LP CP UP PP ε RT)
      = ⟨Except.error (.remote e), [.view id], [], cache⟩ ∧
    (updateResource A cache id uparams (Except.error e) :
        OpResult K RT CT LP CP UP PP ε RT)
      = ⟨Except.error (.remote e), [.update id uparams], [], cache⟩ ∧
    (patchResource A cache id pparams (Except.error e) :
        OpResult K RT CT LP CP UP PP ε RT)
      = ⟨Except.error (.remote e), [.patch id pparams], [], cache⟩ ∧
    (removeResource A cache id (Except.error e) :
        OpResult K RT CT LP CP UP PP ε VR)
      = ⟨Except.error (.remote e), [.remove id], [], cache⟩ :=
  ⟨rfl, rfl, rfl, rfl, rfl, rfl⟩

/-- C2: when the remote create call resolves with a resource,
`createResource` updates the unparameterized collection entry by applying
`upsert` only when a previous collection value exists; when no entry exists
the updater is skipped and the collection entry remains absent, while the
resource entry is still set.  The operation returns the created resource. -/
theorem createResource_propagation {K RT CT LP CP UP PP ε : Type}
    [DecidableEq K] (A : ResourceAdapter LP CT RT K) (cache : Cache K RT CT)
    (params : CP) (resource : RT) (out : OpResult K RT CT LP CP UP PP ε RT)
    (hout : out = createResource A cache params (Except.ok resource))
    (hk : A.resourceKey (Sum.inl resource) ≠ A.collectionKey none) :
    out.result = Except.ok resource ∧
    out.cache (A.resourceKey (Sum.inl resource))
      = some (.res resource) ∧
    (cache (A.collectionKey none) = none →
      out.cache (A.collectionKey none) = none ∧
      out.writes
        = [.skipped (A.collectionKey none) false,
           .committed (A.resourceKey (Sum.inl resource)) (.res resource)
             false]) ∧
    (∀ c, cache (A.collectionKey none) = some (.col c) →
      out.cache (A.collectionKey none) = some (.col (A.upsert resource c)) ∧
      out.writes
        = [.committed (A.collectionKey none) (.col (A.upsert resource c))
             false,
           .committed (A.resourceKey (Sum.inl resource)) (.res resource)
             false]) := by
  subst hout
  have hk' : A.collectionKey none ≠ A.resourceKey (Sum.inl resource) :=
    fun h => hk h.symm
  refine ⟨rfl, ?_, ?_, ?_⟩
  · simp [createResource, mutateWith, mutateValue, setEntry]
  · intro h
    simp [createResource, mutateWith, mutateValue, setEntry,
      guardedColUpdate, h, hk']
  · intro c hcol
    simp [createResource, mutateWith, mutateValue, setEntry,
      guardedColUpdate, hcol, hk']

/-- Closed instantiation of `createResource_propagation`: creating
`⟨"1", false⟩` against an empty cache leaves the collection entry absent and
sets the resource entry. -/
theorem createResource_propagation_witness :
    (createResource todoAdapter emptyCache "p" (Except.ok ⟨"1", false⟩) :
        OpResult (DefaultKey String) Todo (List Todo) String String String
          String String Todo).cache (todoAdapter.collectionKey none)
      = none ∧
    (createResource todoAdapter emptyCache "p" (Except.ok ⟨"1", false⟩) :
        OpResult (DefaultKey String) Todo (List Todo) String String String
          String String Todo).cache
        (todoAdapter.resourceKey (Sum.inl ⟨"1", false⟩))
      = some (.res ⟨"1", false⟩) := by
  have h := createResource_propagation todoAdapter emptyCache "p"
    ⟨"1", false⟩
    (createResource todoAdapter emptyCache "p" (Except.ok ⟨"1", false⟩) :
      OpResult (DefaultKey String) Todo (List Todo) String String String
        String String Todo)
    rfl (by decide)
  exact ⟨(h.2.2.1 rfl).1, h.2.1⟩

/-- C3: when the remote remove call resolves, `removeResource` updates the
unparameterized collection entry by applying the adapter's `remove` (skipped
when no entry exists), then writes the `null` tombstone — a present entry,
not an absent one — to `resourceKey(id)`, and returns the remote call's
result. -/
theorem removeResource_propagation {K RT CT LP CP UP PP VR ε : Type}
    [DecidableEq K] (A : ResourceAdapter LP CT RT K) (cache : Cache K RT CT)
    (id : String) (response : VR)
    (out : OpResult K RT CT LP CP UP PP ε VR)
    (hout : out = removeResource A cache id (Except.ok response))
    (hk : A.resourceKey (Sum.inr id) ≠ A.collectionKey none) :
    out.result = Except.ok response ∧
    out.cache (A.resourceKey (Sum.inr id)) = some .null ∧
    out.cache (A.resourceKey (Sum.inr id)) ≠ none ∧
    (cache (A.collectionKey none) = none →
      out.cache (A.collectionKey none) = none ∧
      out.writes
        = [.skipped (A.collectionKey none) false,
           .committed (A.resourceKey (Sum.inr id)) .null false]) ∧
    (∀ c, cache (A.collectionKey none) = some (.col c) →
      out.cache (A.collectionKey none) = some (.col (A.remove id c)) ∧
      out.writes
        = [.committed (A.collectionKey none) (.col (A.remove id c)) false,
           .committed (A.resourceKey (Sum.inr id)) .null false]) := by
  subst hout
  have hk' : A.collectionKey none ≠ A.resourceKey (Sum.inr id) :=
    fun h => hk h.symm
  refine ⟨rfl, ?_, ?_, ?_, ?_⟩
  · simp [removeResource, mutateWith, mutateValue, setEntry]
  · simp [removeResource, mutateWith, mutateValue, setEntry]
  · intro h
    simp [removeResource, mutateWith, mutateValue, setEntry,
      guardedColUpdate, h, hk']
  · intro c hcol
    simp [removeResource, mutateWith, mutateValue, setEntry,
      guardedColUpdate, hcol, hk']

/-- Closed instantiation of `removeResource_propagation`: starting from the
collection entry `[⟨"1", false⟩]`, removing id `"1"` empties the collection
entry and tombstones the resource entry. -/
theorem removeResource_propagation_witness :
    (removeResource todoAdapter
        (setEntry emptyCache (todoAdapter.collectionKey none)
          (.col [⟨"1", false⟩]))
        "1" (Except.ok ()) :
      OpResult (DefaultKey String) Todo (List Todo) String String String
        String String Unit).cache (todoAdapter.collectionKey none)
      = some (.col []) ∧
    (removeResource todoAdapter
        (setEntry emptyCache (todoAdapter.collectionKey none)
          (.col [⟨"1", false⟩]))
        "1" (Except.ok ()) :
      OpResult (DefaultKey String) Todo (List Todo) String String String
        String String Unit).cache (todoAdapter.resourceKey (Sum.inr "1"))
      = some .null := by
  have h := removeResource_propagation todoAdapter
    (setEntry emptyCache (todoAdapter.collectionKey none)
      (.col [⟨"1", false⟩]))
    "1" ()
    (removeResource todoAdapter
        (setEntry emptyCache (todoAdapter.collectionKey none)
          (.col [⟨"1", false⟩]))
        "1" (Except.ok ()) :
      OpResult (DefaultKey String) Todo (List Todo) String String String
        String String Unit)
    rfl (by decide)
  refine ⟨?_, h.2.1⟩
  have hcol := (h.2.2.2.2 [⟨"1", false⟩] (by simp [setEntry])).1
  exact hcol

/-- The caller-visible result of `viewResource` is the remote outcome with a
rejection wrapped as a remote error. -/
theorem viewResource_result {K RT CT LP CP UP PP ε : Type} [DecidableEq K]
    (A : ResourceAdapter LP CT RT K) (cache : Cache K RT CT) (id : String)
    (rem : Except ε RT) :
    (viewResource A cache id rem :
      OpResult K RT CT LP CP UP PP ε RT).result
      = rem.mapError CrsError.remote := by
  cases rem <;> rfl

/-- The caller-visible result of `updateResource` is the remote outcome with
a rejection wrapped as a remote error. -/
theorem updateResource_result {K RT CT LP CP UP PP ε : Type} [DecidableEq K]
    (A : ResourceAdapter LP CT RT K) (cache : Cache K RT CT) (id : String)
    (params : UP) (rem : Except ε RT) :
    (updateResource A cache id params rem :
      OpResult K RT CT LP CP UP PP ε RT).result
      = rem.mapError CrsError.remote := by
  cases rem <;> rfl

/-- The caller-visible result of `patchResource` is the remote outcome with a
rejection wrapped as a remote error. -/
theorem patchResource_result {K RT CT LP CP UP PP ε : Type} [DecidableEq K]
    (A : ResourceAdapter LP CT RT K) (cache : Cache K RT CT) (id : String)
    (params : PP) (rem : Except ε RT) :
    (patchResource A cache id params rem :
      OpResult K RT CT LP CP UP PP ε RT).result
      = rem.mapError CrsError.remote := by
  cases rem <;> rfl

/-- The caller-visible result of `removeResource` is the remote outcome with
a rejection wrapped as a remote error. -/
theorem removeResource_result {K RT CT LP CP UP PP VR ε : Type}
    [DecidableEq K] (A : ResourceAdapter LP CT RT K) (cache : Cache K RT CT)
    (id : String) (rem : Except ε VR) :
    (removeResource A cache id rem :
      OpResult K RT CT LP CP UP PP ε VR).result
      = rem.mapError CrsError.remote := by
  cases rem <;> rfl

/-- A remote-wrapped outcome is never the locally thrown guard error. -/
theorem mapError_remote_ne_thrown {ε α : Type} (e : Except ε α)
    (msg : String) :
    ¬ e.mapError CrsError.remote = Except.error (CrsError.thrown msg) := by
  cases e <;> simp [Except.mapError]

/-- C5: on the resource-scoped binding with no bound id, each of `view`,
`update`, `partial` and `remove` fails with the identifier-missing error
(`Error('id is undefined')`) before any remote call: no remote-client call
is issued, no cache write happens, and the cache is unchanged. -/
theorem boundOps_missing_id {K RT CT LP CP UP PP VR ε : Type} [DecidableEq K]
    (A : ResourceAdapter LP CT RT K) (cache : Cache K RT CT)
    (uparams : UP) (pparams : PP)
    (remoteV remoteU remoteP : String → Except ε RT)
    (remoteR : String → Except ε VR) :
    (boundView A cache none remoteV : OpResult K RT CT LP CP UP PP ε RT)
      = ⟨Except.error (.thrown "id is undefined"), [], [], cache⟩ ∧
    (boundUpdate A cache none uparams remoteU :
        OpResult K RT CT LP CP UP PP ε RT)
      = ⟨Except.error (.thrown "id is undefined"), [], [], cache⟩ ∧
    (boundPatch A cache none pparams remoteP :
        OpResult K RT CT LP CP UP PP ε RT)
      = ⟨Except.error (.thrown "id is undefined"), [], [], cache⟩ ∧
    (boundRemove A cache none remoteR : OpResult K RT CT LP CP UP PP ε VR)
      = ⟨Except.error (.thrown "id is undefined"), [], [], cache⟩ :=
  ⟨rfl, rfl, rfl, rfl⟩

/-- C10: on the resource-scoped binding, each of `view`, `update`, `partial`
and `remove` raises the identifier-missing error — with no remote call and
no cache write — exactly when the bound id is `undefined` or the empty
string, because the guard tests the id for JavaScript falsiness. -/
theorem boundOps_falsy_id_iff {K RT CT LP CP UP PP VR ε : Type}
    [DecidableEq K] (A : ResourceAdapter LP CT RT K) (cache : Cache K RT CT)
    (idOpt : Option String) (uparams : UP) (pparams : PP)
    (remoteV remoteU remoteP : String → Except ε RT)
    (remoteR : String → Except ε VR) :
    (((idOpt = none ∨ idOpt = some "") →
        (boundView A cache idOpt remoteV :
            OpResult K RT CT LP CP UP PP ε RT)
          = ⟨Except.error (.thrown "id is undefined"), [], [], cache⟩) ∧
      ((boundView A cache idOpt remoteV :
          OpResult K RT CT LP CP UP PP ε RT).result
        = Except.error (.thrown "id is undefined")
        ↔ (idOpt = none ∨ idOpt = some ""))) ∧
    (((idOpt = none ∨ idOpt = some "") →
        (boundUpdate A cache idOpt uparams remoteU :
            OpResult K RT CT LP CP UP PP ε RT)
          = ⟨Except.error (.thrown "id is undefined"), [], [], cache⟩) ∧
      ((boundUpdate A cache idOpt uparams remoteU :
          OpResult K RT CT LP CP UP PP ε RT).result
        = Except.error (.thrown "id is undefined")
        ↔ (idOpt = none ∨ idOpt = some ""))) ∧
    (((idOpt = none ∨ idOpt = some "") →
        (boundPatch A cache idOpt pparams remoteP :
            OpResult K RT CT LP CP UP PP ε RT)
          = ⟨Except.error (.thrown "id is undefined"), [], [], cache⟩) ∧
      ((boundPatch A cache idOpt pparams remoteP :
          OpResult K RT CT LP CP UP PP ε RT).result
        = Except.error (.thrown "id is undefined")
        ↔ (idOpt = none ∨ idOpt = some ""))) ∧
    (((idOpt = none ∨ idOpt = some "") →
        (boundRemove A cache idOpt remoteR :
            OpResult K RT CT LP CP UP PP ε VR)
          = ⟨Except.error (.thrown "id is undefined"), [], [], cache⟩) ∧
      ((boundRemove A cache idOpt remoteR :
          OpResult K RT CT LP CP UP PP ε VR).result
        = Except.error (.thrown "id is undefined")
        ↔ (idOpt = none ∨ idOpt = some ""))) := by
  rcases idOpt with _ | s
  · simp [boundView, boundUpdate, boundPatch, boundRemove, assertId]
  · rcases eq_or_ne s "" with rfl | hs
    · simp [boundView, boundUpdate, boundPatch, boundRemove, assertId]
    · simp [boundView, boundUpdate, boundPatch, boundRemove, assertId, hs,
        viewResource_result, updateResource_result, patchResource_result,
        removeResource_result, mapError_remote_ne_thrown]

/-- Closed instantiation of `boundOps_falsy_id_iff`: on the binding bound to
the empty-string id, `view` throws the identifier-missing error with no
remote call and no cache write. -/
theorem boundOps_falsy_id_iff_witness :
    (boundView todoAdapter emptyCache (some "") todoRemote :
        OpResult (DefaultKey String) Todo (List Todo) String String String
          String String Todo)
      = ⟨Except.error (.thrown "id is undefined"), [], [], emptyCache⟩ := by
  exact (boundOps_falsy_id_iff todoAdapter emptyCache (some "")
    "u" "p" todoRemote todoRemote todoRemote todoRemoteVoid).1.1
    (Or.inr rfl)
